import Mathlib

/-!
Verification of the indicator pipeline and signal engine of the
silver-trade-tool repository (python_backtest package).

The embedding is shallow: price series become functions `ℕ → ℚ`,
the pandas rolling mean becomes an `Option ℚ` valued window mean
(`none` models the NaN warm-up prefix), and the per-bar strategy
methods of `TradeExpertPro` become pure functions over a record of
the per-bar feature columns they read.
-/

/-! ## Smoothing primitives (indicators.py, `ema` / `sma`) -/

/-- Embedding of `ema` (indicators.py lines 10-12): pandas
`ewm(span=length, adjust=False).mean()` is the recurrence
`e[0] = s[0]`, `e[i] = s[i]*α + e[i-1]*(1-α)` with `α = 2/(length+1)`. -/
def ema (s : ℕ → ℚ) (length : ℕ) : ℕ → ℚ
  | 0 => s 0
  | i + 1 => s (i + 1) * (2 / ((length : ℚ) + 1)) + ema s length i * (1 - 2 / ((length : ℚ) + 1))

/-- Rolling window mean of width `length` ending at index `i`:
pandas `rolling(window=length).mean()`, which is NaN (here `none`)
for indices before `length - 1`. -/
def rollMean (f : ℕ → ℚ) (length : ℕ) (i : ℕ) : Option ℚ :=
  if i + 1 < length then none
  else some ((∑ j in Finset.range length, f (i - j)) / (length : ℚ))

/-- Embedding of `sma` (indicators.py lines 15-17). -/
def sma (s : ℕ → ℚ) (length : ℕ) (i : ℕ) : Option ℚ :=
  rollMean s length i

/-! ## RSI (indicators.py, `rsi`, lines 20-26)

The source computes `delta = series.diff()` (NaN at index 0), then
`gain = delta.where(delta > 0, 0)` and `loss = -delta.where(delta < 0, 0)`
(a NaN delta fails both comparisons, so index 0 contributes 0 to both),
takes rolling means of each, and returns `100 - 100/(1 + gain/loss)` in
IEEE floats.  For the nonnegative values arising here the float division
gives: a finite value when the loss mean is positive, `+inf` (so RSI
exactly 100) when the loss mean is 0 and the gain mean positive, and NaN
(modeled `none`) when both means are 0. -/

/-- The per-bar delta `series.diff()`: NaN (`none`) at index 0. -/
def deltaF (s : ℕ → ℚ) (i : ℕ) : Option ℚ :=
  if i = 0 then none else some (s i - s (i - 1))

/-- The per-bar gain `delta.where(delta > 0, 0)`; a NaN delta compares
false, giving 0. -/
def gainF (s : ℕ → ℚ) (i : ℕ) : ℚ :=
  match deltaF s i with
  | some d => if 0 < d then d else 0
  | none => 0

/-- The per-bar loss `-delta.where(delta < 0, 0)`; a NaN delta compares
false, giving 0. -/
def lossF (s : ℕ → ℚ) (i : ℕ) : ℚ :=
  match deltaF s i with
  | some d => if d < 0 then -d else 0
  | none => 0

/-- Value of `100 - 100/(1 + g/l)` under IEEE float semantics for the
nonnegative averages `g` (gain) and `l` (loss): finite when `l > 0`,
`+inf` ratio hence exactly 100 when `l = 0 < g`, NaN (`none`) when both
are 0. -/
def rsiVal (g l : ℚ) : Option ℚ :=
  if 0 < l then some (100 - 100 / (1 + g / l))
  else if 0 < g then some 100
  else none

/-- Embedding of `rsi` (indicators.py lines 20-26) with the IEEE float
boundary behaviour of `rs = gain/loss` made explicit in `rsiVal`. -/
def rsi (s : ℕ → ℚ) (length : ℕ) (i : ℕ) : Option ℚ :=
  match rollMean (gainF s) length i, rollMean (lossF s) length i with
  | some g, some l => rsiVal g l
  | _, _ => none

/-! ## SuperTrend (indicators.py, `supertrend`, lines 48-83)

The recurrence of lines 60-82 over the upper band, lower band and close
series: the pair returned at index `i` is `(supertrend.iloc[i],
direction.iloc[i])`.  The band series are taken as inputs; the branch at
line 64 tests the previous close against the previous band value, and in
the source the assignment `supertrend.iloc[i] = upper_band.iloc[i]`
before the inner test is inlined into the comparison. -/

/-- State of the SuperTrend state machine at bar `i`: band value and
direction (`1` uptrend, `-1` downtrend), per indicators.py lines 60-82. -/
def stStep (upperBand lowerBand close : ℕ → ℚ) : ℕ → ℚ × ℤ
  | 0 => (upperBand 0, 1)
  | i + 1 =>
      let prev := (stStep upperBand lowerBand close i).1
      if close i ≤ prev then
        -- in downtrend: candidate band = upperBand (i+1)
        if upperBand (i + 1) < close (i + 1) then (lowerBand (i + 1), 1)
        else (min (upperBand (i + 1)) prev, -1)
      else
        -- in uptrend: candidate band = lowerBand (i+1)
        if close (i + 1) < lowerBand (i + 1) then (upperBand (i + 1), -1)
        else (max (lowerBand (i + 1)) prev, 1)

/-- The SuperTrend band series (first component of the state). -/
def supertrend (u l c : ℕ → ℚ) (i : ℕ) : ℚ :=
  (stStep u l c i).1

/-- The SuperTrend direction series (second component of the state). -/
def st_direction (u l c : ℕ → ℚ) (i : ℕ) : ℤ :=
  (stStep u l c i).2

/-- The all-zero series, used to instantiate theorems at a concrete input. -/
def zeroSeq : ℕ → ℚ := fun _ => 0

/-! ## Theorems for the smoothing and SuperTrend claims -/

/-- C9: for every series, ema and sma of length 1 equal the input series
exactly at every index. -/
theorem C9_length_one_identity (s : ℕ → ℚ) (i : ℕ) :
    ema s 1 i = s i ∧ sma s 1 i = some (s i) := by
  constructor
  · induction i with
    | zero => rfl
    | succ n ih =>
        show s (n + 1) * (2 / ((1 : ℚ) + 1)) + ema s 1 n * (1 - 2 / ((1 : ℚ) + 1)) = s (n + 1)
        rw [ih]
        norm_num
  · show rollMean s 1 i = some (s i)
    unfold rollMean
    rw [if_neg (by omega)]
    simp

/-- C1 counterexample: at bar index 0 the SuperTrend state is seeded with
direction `+1` (UPTREND), not `-1` (DOWNTREND) as the claim states; shown
at the concrete all-zero input. -/
theorem C1_counterexample :
    st_direction zeroSeq zeroSeq zeroSeq 0 = 1 ∧
    ¬ st_direction zeroSeq zeroSeq zeroSeq 0 = -1 := by
  constructor
  · rfl
  · intro h
    exact absurd h (by decide)

/-- C1 amended: for every input series, the SuperTrend computation seeds
its state at bar index 0 with band value = upperBand 0 and direction
UPTREND (+1), per indicators.py lines 60-61. -/
theorem C1_seed (u l c : ℕ → ℚ) :
    supertrend u l c 0 = u 0 ∧ st_direction u l c 0 = 1 :=
  ⟨rfl, rfl⟩

/-- The constant series with value `q`. -/
def constSeq (q : ℚ) : ℕ → ℚ := fun _ => q

/-- C4: the SuperTrend recurrence at bar `i+1`.  In the downtrend regime
(previous close ≤ previous band) the candidate band is `upperBand (i+1)`;
the state flips to UPTREND with band `lowerBand (i+1)` exactly when the
current close exceeds the candidate, and otherwise stays DOWNTREND with
band `min candidate previousBand`, which never exceeds the previous band.
The symmetric rule governs the uptrend regime. -/
theorem C4_transition (u l c : ℕ → ℚ) (i : ℕ) :
    (c i ≤ (stStep u l c i).1 →
      (u (i + 1) < c (i + 1) → stStep u l c (i + 1) = (l (i + 1), 1)) ∧
      (¬ u (i + 1) < c (i + 1) →
        stStep u l c (i + 1) = (min (u (i + 1)) (stStep u l c i).1, -1) ∧
        (stStep u l c (i + 1)).1 ≤ (stStep u l c i).1)) ∧
    (¬ c i ≤ (stStep u l c i).1 →
      (c (i + 1) < l (i + 1) → stStep u l c (i + 1) = (u (i + 1), -1)) ∧
      (¬ c (i + 1) < l (i + 1) →
        stStep u l c (i + 1) = (max (l (i + 1)) (stStep u l c i).1, 1) ∧
        (stStep u l c i).1 ≤ (stStep u l c (i + 1)).1)) := by
  have e : stStep u l c (i + 1) =
      if c i ≤ (stStep u l c i).1 then
        if u (i + 1) < c (i + 1) then (l (i + 1), 1)
        else (min (u (i + 1)) (stStep u l c i).1, -1)
      else
        if c (i + 1) < l (i + 1) then (u (i + 1), -1)
        else (max (l (i + 1)) (stStep u l c i).1, 1) := rfl
  constructor
  · intro hdown
    rw [e, if_pos hdown]
    refine ⟨fun hflip => by rw [if_pos hflip], fun hstay => ?_⟩
    rw [if_neg hstay]
    exact ⟨rfl, min_le_right _ _⟩
  · intro hup
    rw [e, if_neg hup]
    refine ⟨fun hflip => by rw [if_pos hflip], fun hstay => ?_⟩
    rw [if_neg hstay]
    exact ⟨rfl, le_max_right _ _⟩

/-- C4 witness: the downtrend stay branch evaluated at a concrete input
(upper band constantly 10, lower band 0, close constantly 5). -/
theorem C4_transition_witness :
    stStep (constSeq 10) zeroSeq (constSeq 5) 1 =
      (min (constSeq 10 1) (stStep (constSeq 10) zeroSeq (constSeq 5) 0).1, -1) ∧
    (stStep (constSeq 10) zeroSeq (constSeq 5) 1).1 ≤
      (stStep (constSeq 10) zeroSeq (constSeq 5) 0).1 :=
  ((C4_transition (constSeq 10) zeroSeq (constSeq 5) 0).1 (by decide)).2 (by decide)

/-! ## Theorems for the RSI claim -/

/-- Per-bar gains are nonnegative. -/
theorem gainF_nonneg (s : ℕ → ℚ) (i : ℕ) : 0 ≤ gainF s i := by
  unfold gainF
  split
  · split
    · next h => exact h.le
    · exact le_rfl
  · exact le_rfl

/-- Per-bar losses are nonnegative. -/
theorem lossF_nonneg (s : ℕ → ℚ) (i : ℕ) : 0 ≤ lossF s i := by
  unfold lossF
  split
  · split
    · next h => exact (neg_nonneg).mpr h.le
    · exact le_rfl
  · exact le_rfl

/-- The natural number series cast to rationals, a strictly increasing
concrete input. -/
def natSeq : ℕ → ℚ := fun n => (n : ℚ)

/-- C6 amended: past the warm-up, every defined RSI value lies in
[0,100]; and when every loss contribution in the trailing window is 0
(all deltas nonnegative) and some gain contribution is positive, RSI is
exactly 100.  (When both averages are 0 the source yields NaN, not 100:
see the counterexample.) -/
theorem C6_rsi_range_saturation (s : ℕ → ℚ) (L i : ℕ)
    (hL : 1 ≤ L) (hw : L ≤ i + 1) :
    (∀ q, rsi s L i = some q → 0 ≤ q ∧ q ≤ 100) ∧
    ((∀ j, j < L → lossF s (i - j) = 0) →
      (∃ j, j < L ∧ 0 < gainF s (i - j)) → rsi s L i = some 100) := by
  have hG : rollMean (gainF s) L i =
      some ((∑ j in Finset.range L, gainF s (i - j)) / (L : ℚ)) := by
    rw [rollMean, if_neg (by omega)]
  have hLo : rollMean (lossF s) L i =
      some ((∑ j in Finset.range L, lossF s (i - j)) / (L : ℚ)) := by
    rw [rollMean, if_neg (by omega)]
  have hrsi : rsi s L i =
      rsiVal ((∑ j in Finset.range L, gainF s (i - j)) / (L : ℚ))
             ((∑ j in Finset.range L, lossF s (i - j)) / (L : ℚ)) := by
    unfold rsi
    rw [hG, hLo]
  have hGnn : 0 ≤ (∑ j in Finset.range L, gainF s (i - j)) / (L : ℚ) :=
    div_nonneg (Finset.sum_nonneg fun j _ => gainF_nonneg s (i - j)) (Nat.cast_nonneg L)
  constructor
  · intro q hq
    rw [hrsi] at hq
    unfold rsiVal at hq
    split at hq
    · next hl =>
        have hq' : 100 - 100 / (1 + _ / _) = q := Option.some.inj hq
        have hx : 0 ≤ (∑ j in Finset.range L, gainF s (i - j)) / (L : ℚ) /
            ((∑ j in Finset.range L, lossF s (i - j)) / (L : ℚ)) :=
          div_nonneg hGnn hl.le
        have h2 : 0 < 100 / (1 + (∑ j in Finset.range L, gainF s (i - j)) / (L : ℚ) /
            ((∑ j in Finset.range L, lossF s (i - j)) / (L : ℚ))) := by positivity
        have h3 : 100 / (1 + (∑ j in Finset.range L, gainF s (i - j)) / (L : ℚ) /
            ((∑ j in Finset.range L, lossF s (i - j)) / (L : ℚ))) ≤ 100 :=
          div_le_self (by norm_num) (by linarith)
        constructor <;> linarith [hq'.symm.le, hq'.le]
    · split at hq
      · next hg =>
          have : (100 : ℚ) = q := Option.some.inj hq
          constructor <;> linarith
      · exact absurd hq (by simp)
  · intro hall hex
    have hLo0 : (∑ j in Finset.range L, lossF s (i - j)) = 0 :=
      Finset.sum_eq_zero fun j hj => hall j (Finset.mem_range.mp hj)
    have hGpos : 0 < (∑ j in Finset.range L, gainF s (i - j)) / (L : ℚ) := by
      obtain ⟨j, hj, hpos⟩ := hex
      refine div_pos ?_ (by have hL0 : 0 < L := hL; exact_mod_cast hL0)
      exact Finset.sum_pos' (fun k _ => gainF_nonneg s (i - k))
        ⟨j, Finset.mem_range.mpr hj, hpos⟩
    rw [hrsi, hLo0]
    unfold rsiVal
    rw [zero_div]
    rw [if_neg (lt_irrefl 0), if_pos hGpos]

/-- C6 witness: on the strictly increasing series of naturals with
window 2 at bar 2, every delta is positive and RSI evaluates to 100. -/
theorem C6_rsi_witness : rsi natSeq 2 2 = some 100 :=
  (C6_rsi_range_saturation natSeq 2 2 (by norm_num) (by norm_num)).2
    (by intro j hj
        interval_cases j <;> norm_num [lossF, deltaF, natSeq])
    ⟨0, by norm_num, by norm_num [gainF, deltaF, natSeq]⟩

/-- C6 counterexample: on the constant series 5 with window 2 at bar 2,
every delta in the window is 0 (hence nonnegative), yet RSI is NaN
(`none`), not 100, because both the average gain and the average loss
vanish and `0/0` is NaN in the source. -/
theorem C6_counterexample :
    deltaF (constSeq 5) 1 = some 0 ∧ deltaF (constSeq 5) 2 = some 0 ∧
    rsi (constSeq 5) 2 2 = none := by
  have hgain : ∀ k, gainF (constSeq 5) k = 0 := by
    intro k
    cases k <;> simp [gainF, deltaF, constSeq]
  have hloss : ∀ k, lossF (constSeq 5) k = 0 := by
    intro k
    cases k <;> simp [lossF, deltaF, constSeq]
  have hg : rollMean (gainF (constSeq 5)) 2 2 = some 0 := by
    rw [rollMean, if_neg (by omega)]
    rw [Finset.sum_range_succ, Finset.sum_range_one, hgain, hgain]
    norm_num
  have hl : rollMean (lossF (constSeq 5)) 2 2 = some 0 := by
    rw [rollMean, if_neg (by omega)]
    rw [Finset.sum_range_succ, Finset.sum_range_one, hloss, hloss]
    norm_num
  refine ⟨by simp [deltaF, constSeq], by simp [deltaF, constSeq], ?_⟩
  unfold rsi
  rw [hg, hl]
  simp [rsiVal]

/-! ## Strategy engine (strategy.py, class TradeExpertPro)

The per-bar values read by the strategy methods (each `self.data.X[-1]`
access) are collected in a record; the strategy parameters of lines
24-32 are the class defaults.  The early `return` paths of `next`
(lines 132-194) emit no order, which the Decision type records as HOLD;
the veto path carries the reason string computed by
`check_veto_conditions`. -/

/-- Per-bar feature values read by the strategy (strategy.py). -/
structure BarData where
  mtfScore : ℚ
  bullishStack : Bool
  bearishStack : Bool
  bias : String
  st_bullish : Bool
  st_bearish : Bool
  rsi : ℚ
  macd : ℚ
  macd_signal : ℚ
  volumeSpike : Bool
  bullishEngulfing : Bool
  hammer : Bool
  bearishEngulfing : Bool
  shootingStar : Bool
  breakAbove : Bool
  breakBelow : Bool
  volState : String
  close : ℚ
  atr : ℚ
  low5 : List ℚ
  high5 : List ℚ

/-- Strategy parameter `min_quality` (strategy.py line 24). -/
def min_quality : ℤ := 50

/-- Strategy parameter `min_rr` (strategy.py line 27). -/
def min_rr : ℚ := 1.5

/-- Strategy parameter `tp1_rr` (strategy.py line 28). -/
def tp1_rr : ℚ := 1.0

/-- Strategy parameter `tp2_rr` (strategy.py line 29). -/
def tp2_rr : ℚ := 2.0

/-- Strategy parameter `tp3_rr` (strategy.py line 30). -/
def tp3_rr : ℚ := 3.0

/-- Strategy parameter `sl_buffer` (strategy.py line 31). -/
def sl_buffer : ℚ := 0.2

/-- Python `int(q)`: truncation toward zero. -/
def pyInt (q : ℚ) : ℤ :=
  if 0 ≤ q then ⌊q⌋ else ⌈q⌉

/-- The symmetric RSI test of the quality score (strategy.py lines
66-68): the same band (30, 70) for either bias. -/
def rsiScoreTest (bias : String) (r : ℚ) : Bool :=
  ((bias == "BULLISH") && decide (30 < r) && decide (r < 70)) ||
  ((bias == "BEARISH") && decide (30 < r) && decide (r < 70))

/-- The direction-specific RSI test of the bullish confirmation count
(strategy.py line 160): RSI strictly between 40 and 70. -/
def rsiConfirmBullish (r : ℚ) : Bool :=
  decide (40 < r) && decide (r < 70)

/-- The direction-specific RSI test of the bearish confirmation count
(strategy.py line 183): RSI strictly between 30 and 60. -/
def rsiConfirmBearish (r : ℚ) : Bool :=
  decide (r < 60) && decide (30 < r)

/-- MTF magnitude term of the quality score, cap 20 (lines 52-53). -/
def mtfTerm (d : BarData) : ℚ :=
  min 20 (|d.mtfScore| / 100 * 20)

/-- EMA stack term, cap 15 (lines 56-57). -/
def stackTerm (d : BarData) : ℚ :=
  if d.bullishStack ∨ d.bearishStack then 15 else 0

/-- SuperTrend alignment term, cap 10 (lines 60-63). -/
def stTerm (d : BarData) : ℚ :=
  if (d.bias = "BULLISH" ∧ d.st_bullish) ∨ (d.bias = "BEARISH" ∧ d.st_bearish) then 10 else 0

/-- RSI confirmation term, cap 10 (lines 66-69). -/
def rsiTerm (d : BarData) : ℚ :=
  if rsiScoreTest d.bias d.rsi then 10 else 0

/-- MACD confirmation term, cap 10 (lines 72-74). -/
def macdTerm (d : BarData) : ℚ :=
  if (d.bias = "BULLISH" ∧ d.macd_signal < d.macd) ∨ (d.bias = "BEARISH" ∧ d.macd < d.macd_signal)
  then 10 else 0

/-- Volume spike term, cap 10 (lines 77-78). -/
def volSpikeTerm (d : BarData) : ℚ :=
  if d.volumeSpike then 10 else 0

/-- Candlestick pattern term, cap 10 (lines 81-83). -/
def candleTerm (d : BarData) : ℚ :=
  if (d.bias = "BULLISH" ∧ (d.bullishEngulfing ∨ d.hammer)) ∨
     (d.bias = "BEARISH" ∧ (d.bearishEngulfing ∨ d.shootingStar))
  then 10 else 0

/-- Structure break term, cap 10 (lines 86-88). -/
def breakTerm (d : BarData) : ℚ :=
  if (d.bias = "BULLISH" ∧ d.breakAbove) ∨ (d.bias = "BEARISH" ∧ d.breakBelow) then 10 else 0

/-- Normal volatility term, cap 5 (lines 91-92). -/
def volStateTerm (d : BarData) : ℚ :=
  if d.volState = "NORMAL" then 5 else 0

/-- Embedding of `get_quality_score` (strategy.py lines 47-94): the
running float sum of the nine capped terms, truncated by `int` and
clamped by `min(100, _)`. -/
def get_quality_score (d : BarData) : ℤ :=
  min 100 (pyInt (mtfTerm d + stackTerm d + stTerm d + rsiTerm d + macdTerm d +
    volSpikeTerm d + candleTerm d + breakTerm d + volStateTerm d))

/-- Embedding of `check_veto_conditions` (strategy.py lines 120-130):
returns the veto flag and the reason string. -/
def check_veto_conditions (d : BarData) : Bool × String :=
  if d.volState = "ULTRA_LOW" ∨ d.volState = "EXTREME" then
    (true, "Volatility: " ++ d.volState)
  else if d.bias = "NEUTRAL" then (true, "No MTF Confluence")
  else (false, "")

/-- Python `min` over a nonempty list (the `Low[-5:]` slice is never
empty in the source); the empty case is unreachable. -/
def pyListMin : List ℚ → ℚ
  | [] => 0
  | x :: xs => xs.foldl min x

/-- Python `max` over a nonempty list. -/
def pyListMax : List ℚ → ℚ
  | [] => 0
  | x :: xs => xs.foldl max x

/-- Embedding of `get_sl_tp` (strategy.py lines 96-118): stop and the
three targets, as the tuple (sl, tp1, tp2, tp3). -/
def get_sl_tp (is_long : Bool) (d : BarData) : ℚ × ℚ × ℚ × ℚ :=
  if is_long then
    let recent_low := pyListMin d.low5
    let sl := min (recent_low - d.atr * sl_buffer) (d.close - d.atr * 1.2)
    let risk := d.close - sl
    (sl, d.close + risk * tp1_rr, d.close + risk * tp2_rr, d.close + risk * tp3_rr)
  else
    let recent_high := pyListMax d.high5
    let sl := max (recent_high + d.atr * sl_buffer) (d.close + d.atr * 1.2)
    let risk := sl - d.close
    (sl, d.close - risk * tp1_rr, d.close - risk * tp2_rr, d.close - risk * tp3_rr)

/-- Reward to risk ratio for a long candidate (strategy.py line 167):
guarded against nonpositive risk, in which case it is 0. -/
def rrLong (close sl tp2 : ℚ) : ℚ :=
  if 0 < close - sl then (tp2 - close) / (close - sl) else 0

/-- Reward to risk ratio for a short candidate (strategy.py line 190). -/
def rrShort (close sl tp2 : ℚ) : ℚ :=
  if 0 < sl - close then (close - tp2) / (sl - close) else 0

/-- Bullish confirmation count (strategy.py lines 153-163). -/
def confirmationsBullish (d : BarData) : ℕ :=
  (if d.bullishStack then 1 else 0) + (if d.st_bullish then 1 else 0) +
  (if d.macd_signal < d.macd then 1 else 0) +
  (if rsiConfirmBullish d.rsi then 1 else 0) +
  (if d.volumeSpike then 1 else 0)

/-- Bearish confirmation count (strategy.py lines 176-186). -/
def confirmationsBearish (d : BarData) : ℕ :=
  (if d.bearishStack then 1 else 0) + (if d.st_bearish then 1 else 0) +
  (if d.macd < d.macd_signal then 1 else 0) +
  (if rsiConfirmBearish d.rsi then 1 else 0) +
  (if d.volumeSpike then 1 else 0)

/-- Per-bar decision of the engine: HOLD (with the veto reason when a
veto fired), or an entry with size, stop and target. -/
inductive Decision where
  | hold : Option String → Decision
  | buy : ℚ → ℚ → ℚ → Decision
  | sell : ℚ → ℚ → ℚ → Decision
deriving DecidableEq

/-- Embedding of the `next` method (strategy.py lines 132-194) as a pure
function of the position flag and the per-bar features.  Early returns
are HOLD; `rr >= self.min_rr` admits the entry with size 0.5, stop `sl`
and target `tp2`. -/
def next (position : Bool) (d : BarData) : Decision :=
  if position then Decision.hold none
  else
    let veto := check_veto_conditions d
    if veto.1 then Decision.hold (some veto.2)
    else if get_quality_score d < min_quality then Decision.hold none
    else if d.bias = "BULLISH" then
      if 3 ≤ confirmationsBullish d then
        let levels := get_sl_tp true d
        if min_rr ≤ rrLong d.close levels.1 levels.2.2.1 then
          Decision.buy 0.5 levels.1 levels.2.2.1
        else Decision.hold none
      else Decision.hold none
    else if d.bias = "BEARISH" then
      if 3 ≤ confirmationsBearish d then
        let levels := get_sl_tp false d
        if min_rr ≤ rrShort d.close levels.1 levels.2.2.1 then
          Decision.sell 0.5 levels.1 levels.2.2.1
        else Decision.hold none
      else Decision.hold none
    else Decision.hold none

/-! ## Theorems for the strategy claims -/

/-- C2: on a FLAT bar whose VolState is ULTRA_LOW or EXTREME or whose
Bias is NEUTRAL, the engine emits HOLD carrying the veto reason computed
by `check_veto_conditions`, and the reason is a nonempty string; in
particular no entry is emitted, and the decision is fixed before the
scoring step is reached. -/
theorem C2_veto_hold (d : BarData)
    (h : d.volState = "ULTRA_LOW" ∨ d.volState = "EXTREME" ∨ d.bias = "NEUTRAL") :
    next false d = Decision.hold (some (check_veto_conditions d).2) ∧
    (check_veto_conditions d).2 ≠ "" := by
  by_cases hvol : d.volState = "ULTRA_LOW" ∨ d.volState = "EXTREME"
  · have h1 : check_veto_conditions d = (true, "Volatility: " ++ d.volState) := by
      unfold check_veto_conditions
      rw [if_pos hvol]
    refine ⟨by simp [next, h1], ?_⟩
    rw [h1]
    rcases hvol with hv | hv <;> rw [hv] <;> decide
  · have hb : d.bias = "NEUTRAL" := by tauto
    have h1 : check_veto_conditions d = (true, "No MTF Confluence") := by
      unfold check_veto_conditions
      rw [if_neg hvol, if_pos hb]
    exact ⟨by simp [next, h1], by rw [h1]; decide⟩

/-- A concrete bar vetoed by EXTREME volatility. -/
def extremeBar : BarData :=
  { mtfScore := 40, bullishStack := true, bearishStack := false, bias := "BULLISH",
    st_bullish := true, st_bearish := false, rsi := 50, macd := 1, macd_signal := 0,
    volumeSpike := true, bullishEngulfing := true, hammer := false,
    bearishEngulfing := false, shootingStar := false, breakAbove := true,
    breakBelow := false, volState := "EXTREME", close := 100, atr := 1,
    low5 := [95], high5 := [105] }

/-- C2 witness: the veto theorem applied to the EXTREME volatility bar. -/
theorem C2_veto_hold_witness :
    next false extremeBar = Decision.hold (some (check_veto_conditions extremeBar).2) ∧
    (check_veto_conditions extremeBar).2 ≠ "" :=
  C2_veto_hold extremeBar (Or.inr (Or.inl rfl))

/-- Bounds for the MTF term of the quality score. -/
theorem mtfTerm_bounds (d : BarData) : 0 ≤ mtfTerm d ∧ mtfTerm d ≤ 20 := by
  refine ⟨le_min (by norm_num) (by positivity), min_le_left _ _⟩

/-- Bounds for the stack term. -/
theorem stackTerm_bounds (d : BarData) : 0 ≤ stackTerm d ∧ stackTerm d ≤ 15 := by
  unfold stackTerm
  split <;> norm_num

/-- Bounds for the SuperTrend alignment term. -/
theorem stTerm_bounds (d : BarData) : 0 ≤ stTerm d ∧ stTerm d ≤ 10 := by
  unfold stTerm
  split <;> norm_num

/-- Bounds for the RSI term. -/
theorem rsiTerm_bounds (d : BarData) : 0 ≤ rsiTerm d ∧ rsiTerm d ≤ 10 := by
  unfold rsiTerm
  split <;> norm_num

/-- Bounds for the MACD term. -/
theorem macdTerm_bounds (d : BarData) : 0 ≤ macdTerm d ∧ macdTerm d ≤ 10 := by
  unfold macdTerm
  split <;> norm_num

/-- Bounds for the volume spike term. -/
theorem volSpikeTerm_bounds (d : BarData) : 0 ≤ volSpikeTerm d ∧ volSpikeTerm d ≤ 10 := by
  unfold volSpikeTerm
  split <;> norm_num

/-- Bounds for the candlestick term. -/
theorem candleTerm_bounds (d : BarData) : 0 ≤ candleTerm d ∧ candleTerm d ≤ 10 := by
  unfold candleTerm
  split <;> norm_num

/-- Bounds for the structure break term. -/
theorem breakTerm_bounds (d : BarData) : 0 ≤ breakTerm d ∧ breakTerm d ≤ 10 := by
  unfold breakTerm
  split <;> norm_num

/-- Bounds for the volatility state term. -/
theorem volStateTerm_bounds (d : BarData) : 0 ≤ volStateTerm d ∧ volStateTerm d ≤ 5 := by
  unfold volStateTerm
  split <;> norm_num

/-- C3: for every bar record, the quality score is an integer in
[0, 100]; the nine per-term caps sum to exactly 100; and the score is
100 only when every term sits at its cap. -/
theorem C3_quality_score_range (d : BarData) :
    0 ≤ get_quality_score d ∧ get_quality_score d ≤ 100 ∧
    (20 + 15 + 10 + 10 + 10 + 10 + 10 + 10 + 5 : ℤ) = 100 ∧
    (get_quality_score d = 100 →
      mtfTerm d = 20 ∧ stackTerm d = 15 ∧ stTerm d = 10 ∧ rsiTerm d = 10 ∧
      macdTerm d = 10 ∧ volSpikeTerm d = 10 ∧ candleTerm d = 10 ∧
      breakTerm d = 10 ∧ volStateTerm d = 5) := by
  obtain ⟨b1, u1⟩ := mtfTerm_bounds d
  obtain ⟨b2, u2⟩ := stackTerm_bounds d
  obtain ⟨b3, u3⟩ := stTerm_bounds d
  obtain ⟨b4, u4⟩ := rsiTerm_bounds d
  obtain ⟨b5, u5⟩ := macdTerm_bounds d
  obtain ⟨b6, u6⟩ := volSpikeTerm_bounds d
  obtain ⟨b7, u7⟩ := candleTerm_bounds d
  obtain ⟨b8, u8⟩ := breakTerm_bounds d
  obtain ⟨b9, u9⟩ := volStateTerm_bounds d
  have hS0 : 0 ≤ mtfTerm d + stackTerm d + stTerm d + rsiTerm d + macdTerm d +
      volSpikeTerm d + candleTerm d + breakTerm d + volStateTerm d := by linarith
  have hpy : pyInt (mtfTerm d + stackTerm d + stTerm d + rsiTerm d + macdTerm d +
      volSpikeTerm d + candleTerm d + breakTerm d + volStateTerm d) =
      ⌊mtfTerm d + stackTerm d + stTerm d + rsiTerm d + macdTerm d +
      volSpikeTerm d + candleTerm d + breakTerm d + volStateTerm d⌋ := by
    unfold pyInt
    rw [if_pos hS0]
  refine ⟨?_, min_le_left _ _, by norm_num, ?_⟩
  · refine le_min (by norm_num) ?_
    rw [hpy]
    exact Int.floor_nonneg.mpr hS0
  · intro h100
    have hfloor : (100 : ℤ) ≤ ⌊mtfTerm d + stackTerm d + stTerm d + rsiTerm d + macdTerm d +
        volSpikeTerm d + candleTerm d + breakTerm d + volStateTerm d⌋ := by
      rw [← hpy]
      exact min_eq_left_iff.mp h100
    have hS100 : (100 : ℚ) ≤ mtfTerm d + stackTerm d + stTerm d + rsiTerm d + macdTerm d +
        volSpikeTerm d + candleTerm d + breakTerm d + volStateTerm d := by
      exact_mod_cast Int.le_floor.mp hfloor
    refine ⟨le_antisymm u1 (by linarith), le_antisymm u2 (by linarith),
      le_antisymm u3 (by linarith), le_antisymm u4 (by linarith),
      le_antisymm u5 (by linarith), le_antisymm u6 (by linarith),
      le_antisymm u7 (by linarith), le_antisymm u8 (by linarith),
      le_antisymm u9 (by linarith)⟩

/-- A concrete bar on which every quality term is at its cap: MTF score
magnitude 100, bullish stack, bullish bias with agreeing SuperTrend,
RSI 50, MACD above signal, volume spike, engulfing candle, breakout and
NORMAL volatility. -/
def cappedBar : BarData :=
  { mtfScore := 100, bullishStack := true, bearishStack := false, bias := "BULLISH",
    st_bullish := true, st_bearish := false, rsi := 50, macd := 1, macd_signal := 0,
    volumeSpike := true, bullishEngulfing := true, hammer := false,
    bearishEngulfing := false, shootingStar := false, breakAbove := true,
    breakBelow := false, volState := "NORMAL", close := 100, atr := 1,
    low5 := [95], high5 := [105] }

/-- Quality score of the capped bar is exactly 100. -/
theorem cappedBar_score : get_quality_score cappedBar = 100 := by
  have ht : mtfTerm cappedBar + stackTerm cappedBar + stTerm cappedBar +
      rsiTerm cappedBar + macdTerm cappedBar + volSpikeTerm cappedBar +
      candleTerm cappedBar + breakTerm cappedBar + volStateTerm cappedBar = 100 := by
    norm_num [mtfTerm, stackTerm, stTerm, rsiTerm, macdTerm, volSpikeTerm,
      candleTerm, breakTerm, volStateTerm, rsiScoreTest, cappedBar]
  unfold get_quality_score
  rw [ht]
  norm_num [pyInt]

/-- C3 witness: the score reaches 100 on the capped bar, forcing every
term to its cap. -/
theorem C3_quality_score_range_witness :
    mtfTerm cappedBar = 20 ∧ stackTerm cappedBar = 15 ∧ stTerm cappedBar = 10 ∧
    rsiTerm cappedBar = 10 ∧ macdTerm cappedBar = 10 ∧ volSpikeTerm cappedBar = 10 ∧
    candleTerm cappedBar = 10 ∧ breakTerm cappedBar = 10 ∧ volStateTerm cappedBar = 5 :=
  (C3_quality_score_range cappedBar).2.2.2 cappedBar_score

/-- C5: whenever the computed risk is nonpositive (stop on the wrong
side of the close, including stop equal to close), the reward to risk
ratio is the rational number 0 by the guard, for both the long and the
short formula; no division is performed. -/
theorem C5_rr_guard (c sl t c2 sl2 t2 : ℚ) (h1 : c - sl ≤ 0) (h2 : sl2 - c2 ≤ 0) :
    rrLong c sl t = 0 ∧ rrShort c2 sl2 t2 = 0 := by
  unfold rrLong rrShort
  rw [if_neg (by linarith), if_neg (by linarith)]
  exact ⟨rfl, rfl⟩

/-- C5 witness: stop exactly at the close on both sides gives ratio 0. -/
theorem C5_rr_guard_witness : rrLong 100 100 110 = 0 ∧ rrShort 100 100 90 = 0 :=
  C5_rr_guard 100 100 110 100 100 90 (by norm_num) (by norm_num)

/-- A concrete bar with BULLISH bias and RSI 35, on which the symmetric
and the direction-specific RSI tests disagree. -/
def rsi35Bar : BarData :=
  { mtfScore := 40, bullishStack := false, bearishStack := false, bias := "BULLISH",
    st_bullish := false, st_bearish := false, rsi := 35, macd := 0, macd_signal := 0,
    volumeSpike := false, bullishEngulfing := false, hammer := false,
    bearishEngulfing := false, shootingStar := false, breakAbove := false,
    breakBelow := false, volState := "NORMAL", close := 100, atr := 1,
    low5 := [95], high5 := [105] }

/-- C7: the symmetric (30, 70) RSI test of the quality score and the
direction-specific RSI tests of the confirmation counts are different
predicates: at RSI 35 under BULLISH bias the score term fires (10
points) while the bullish confirmation check fails, so the confirmation
count of a bar with no other confirming feature stays 0; symmetrically
at RSI 65 for the bearish check. -/
theorem C7_rsi_predicates_differ :
    rsiScoreTest "BULLISH" 35 = true ∧ rsiConfirmBullish 35 = false ∧
    rsiScoreTest "BEARISH" 65 = true ∧ rsiConfirmBearish 65 = false ∧
    rsiTerm rsi35Bar = 10 ∧ confirmationsBullish rsi35Bar = 0 := by
  refine ⟨by decide, by decide, by decide, by decide, ?_, by decide⟩
  norm_num [rsiTerm, rsi35Bar, rsiScoreTest]

/-! ## Feature aggregation (indicators.py, `add_all_indicators`)

The columns feeding the multi-timeframe bias: the EMA stack flags
(lines 141-142), the SuperTrend direction flags (lines 149-150), the
MTF score increments (lines 225-229) and the bias labels (lines
232-234).  The SuperTrend band inputs are abstracted as series, since
every fact used downstream depends only on the direction being +1 or
-1 at each bar, which holds for every band series. -/

/-- Column `BullishStack` (line 141): EMA9 > EMA21 > EMA50 and close
above EMA200. -/
def bullishStackCol (c : ℕ → ℚ) (l9 l21 l50 l200 : ℕ) (i : ℕ) : Bool :=
  decide (ema c l9 i > ema c l21 i) && decide (ema c l21 i > ema c l50 i) &&
  decide (c i > ema c l200 i)

/-- Column `BearishStack` (line 142): the mirror ordering. -/
def bearishStackCol (c : ℕ → ℚ) (l9 l21 l50 l200 : ℕ) (i : ℕ) : Bool :=
  decide (ema c l9 i < ema c l21 i) && decide (ema c l21 i < ema c l50 i) &&
  decide (c i < ema c l200 i)

/-- Column `ST_Bullish` (line 149): direction equals +1. -/
def stBullishCol (u l c : ℕ → ℚ) (i : ℕ) : Bool :=
  decide (st_direction u l c i = 1)

/-- Column `ST_Bearish` (line 150): direction equals -1. -/
def stBearishCol (u l c : ℕ → ℚ) (i : ℕ) : Bool :=
  decide (st_direction u l c i = -1)

/-- Column `MTFScore` (lines 225-229): 0, plus 25 on a bullish stack,
minus 25 on a bearish stack, plus 15 on bullish SuperTrend, minus 15 on
bearish SuperTrend. -/
def mtfScoreCol (c u l : ℕ → ℚ) (l9 l21 l50 l200 : ℕ) (i : ℕ) : ℤ :=
  (if bullishStackCol c l9 l21 l50 l200 i then 25 else 0) -
  (if bearishStackCol c l9 l21 l50 l200 i then 25 else 0) +
  (if stBullishCol u l c i then 15 else 0) -
  (if stBearishCol u l c i then 15 else 0)

/-- Column `Bias` (lines 232-234): NEUTRAL by default, BULLISH when the
score reaches 30, BEARISH when it reaches -30 (the two regions are
disjoint, so the overwrite order of the source does not matter). -/
def biasCol (c u l : ℕ → ℚ) (l9 l21 l50 l200 : ℕ) (i : ℕ) : String :=
  if mtfScoreCol c u l l9 l21 l50 l200 i ≤ -30 then "BEARISH"
  else if 30 ≤ mtfScoreCol c u l l9 l21 l50 l200 i then "BULLISH"
  else "NEUTRAL"

/-- Bias-pipeline columns produced by `add_all_indicators`. -/
structure FeatureColumns where
  BullishStack : ℕ → Bool
  BearishStack : ℕ → Bool
  ST_Bullish : ℕ → Bool
  ST_Bearish : ℕ → Bool
  MTFScore : ℕ → ℤ
  Bias : ℕ → String

/-- Embedding of `add_all_indicators` (indicators.py lines 118-236),
restricted to the bias-pipeline columns.  The function takes the
timestamp index of the DataFrame as an argument and, exactly as the
source, never reads it: lines 118-236 contain no timestamp check and no
raise, so every input produces a fully computed output. -/
def add_all_indicators (_ts : ℕ → ℤ) (close u l : ℕ → ℚ)
    (l9 l21 l50 l200 : ℕ) : FeatureColumns :=
  { BullishStack := bullishStackCol close l9 l21 l50 l200
    BearishStack := bearishStackCol close l9 l21 l50 l200
    ST_Bullish := stBullishCol u l close
    ST_Bearish := stBearishCol u l close
    MTFScore := mtfScoreCol close u l l9 l21 l50 l200
    Bias := biasCol close u l l9 l21 l50 l200 }

/-- The SuperTrend direction is +1 or -1 at every bar, whatever the
band and close series are: every branch of the recurrence assigns one
of the two values. -/
theorem st_direction_cases (u l c : ℕ → ℚ) (i : ℕ) :
    st_direction u l c i = 1 ∨ st_direction u l c i = -1 := by
  cases i with
  | zero => exact Or.inl rfl
  | succ n =>
      have e : stStep u l c (n + 1) =
          if c n ≤ (stStep u l c n).1 then
            if u (n + 1) < c (n + 1) then (l (n + 1), 1)
            else (min (u (n + 1)) (stStep u l c n).1, -1)
          else
            if c (n + 1) < l (n + 1) then (u (n + 1), -1)
            else (max (l (n + 1)) (stStep u l c n).1, 1) := rfl
      unfold st_direction
      by_cases h1 : c n ≤ (stStep u l c n).1
      · by_cases h2 : u (n + 1) < c (n + 1)
        · rw [e, if_pos h1, if_pos h2]; exact Or.inl rfl
        · rw [e, if_pos h1, if_neg h2]; exact Or.inr rfl
      · by_cases h2 : c (n + 1) < l (n + 1)
        · rw [e, if_neg h1, if_pos h2]; exact Or.inr rfl
        · rw [e, if_neg h1, if_neg h2]; exact Or.inl rfl

/-- The two stack flags are never simultaneously true: they demand
opposite strict orderings of EMA9 and EMA21. -/
theorem stacks_exclusive (c : ℕ → ℚ) (l9 l21 l50 l200 i : ℕ) :
    ¬(bullishStackCol c l9 l21 l50 l200 i = true ∧
      bearishStackCol c l9 l21 l50 l200 i = true) := by
  rintro ⟨hb, hr⟩
  simp only [bullishStackCol, Bool.and_eq_true, decide_eq_true_eq] at hb
  simp only [bearishStackCol, Bool.and_eq_true, decide_eq_true_eq] at hr
  exact absurd hb.1.1 (lt_asymm hr.1.1)

/-- Case analysis of the MTF score: it reaches 30 exactly on a bullish
stack with bullish SuperTrend (value 40), and -30 exactly on the mirror
(value -40). -/
theorem mtfScoreCol_cases (c u l : ℕ → ℚ) (l9 l21 l50 l200 i : ℕ) :
    (30 ≤ mtfScoreCol c u l l9 l21 l50 l200 i ↔
      bullishStackCol c l9 l21 l50 l200 i = true ∧ st_direction u l c i = 1) ∧
    (mtfScoreCol c u l l9 l21 l50 l200 i ≤ -30 ↔
      bearishStackCol c l9 l21 l50 l200 i = true ∧ st_direction u l c i = -1) ∧
    (30 ≤ mtfScoreCol c u l l9 l21 l50 l200 i → mtfScoreCol c u l l9 l21 l50 l200 i = 40) ∧
    (mtfScoreCol c u l l9 l21 l50 l200 i ≤ -30 → mtfScoreCol c u l l9 l21 l50 l200 i = -40) := by
  have hex := stacks_exclusive c l9 l21 l50 l200 i
  have hd := st_direction_cases u l c i
  unfold mtfScoreCol stBullishCol stBearishCol
  by_cases hbull : bullishStackCol c l9 l21 l50 l200 i = true
  · have hbear : bearishStackCol c l9 l21 l50 l200 i = false := by
      cases hb2 : bearishStackCol c l9 l21 l50 l200 i
      · rfl
      · exact absurd ⟨hbull, hb2⟩ hex
    rcases hd with hd | hd <;> rw [hd, hbull, hbear] <;> norm_num
  · have hbf : bullishStackCol c l9 l21 l50 l200 i = false := by
      cases hb2 : bullishStackCol c l9 l21 l50 l200 i
      · rfl
      · exact absurd hb2 hbull
    cases hbear : bearishStackCol c l9 l21 l50 l200 i <;>
      rcases hd with hd | hd <;> rw [hd, hbf] <;> norm_num

/-- C10: the Bias column is BULLISH exactly when the bullish stack and
a bullish SuperTrend direction coincide (score 40), BEARISH exactly on
the mirror (score -40), the stack flags are mutually exclusive, and a
score of magnitude at least 30 forces value 40 or -40. -/
theorem C10_bias_characterization (c u l : ℕ → ℚ) (l9 l21 l50 l200 i : ℕ) :
    (biasCol c u l l9 l21 l50 l200 i = "BULLISH" ↔
      bullishStackCol c l9 l21 l50 l200 i = true ∧ st_direction u l c i = 1) ∧
    (biasCol c u l l9 l21 l50 l200 i = "BEARISH" ↔
      bearishStackCol c l9 l21 l50 l200 i = true ∧ st_direction u l c i = -1) ∧
    ¬(bullishStackCol c l9 l21 l50 l200 i = true ∧
      bearishStackCol c l9 l21 l50 l200 i = true) ∧
    (30 ≤ mtfScoreCol c u l l9 l21 l50 l200 i → mtfScoreCol c u l l9 l21 l50 l200 i = 40) ∧
    (mtfScoreCol c u l l9 l21 l50 l200 i ≤ -30 → mtfScoreCol c u l l9 l21 l50 l200 i = -40) := by
  obtain ⟨h30, hm30, h40, hm40⟩ := mtfScoreCol_cases c u l l9 l21 l50 l200 i
  refine ⟨?_, ?_, stacks_exclusive c l9 l21 l50 l200 i, h40, hm40⟩
  · rw [← h30]
    unfold biasCol
    by_cases h1 : mtfScoreCol c u l l9 l21 l50 l200 i ≤ -30
    · rw [if_pos h1]
      exact ⟨fun hc => absurd hc (by decide), fun h2 => absurd h2 (by omega)⟩
    · rw [if_neg h1]
      by_cases h2 : 30 ≤ mtfScoreCol c u l l9 l21 l50 l200 i
      · rw [if_pos h2]
        exact ⟨fun _ => h2, fun _ => rfl⟩
      · rw [if_neg h2]
        exact ⟨fun hc => absurd hc (by decide), fun hc => absurd hc h2⟩
  · rw [← hm30]
    unfold biasCol
    by_cases h1 : mtfScoreCol c u l l9 l21 l50 l200 i ≤ -30
    · rw [if_pos h1]
      exact ⟨fun _ => h1, fun _ => rfl⟩
    · rw [if_neg h1]
      by_cases h2 : 30 ≤ mtfScoreCol c u l l9 l21 l50 l200 i
      · rw [if_pos h2]
        exact ⟨fun hc => absurd hc (by decide), fun hc => absurd hc h1⟩
      · rw [if_neg h2]
        exact ⟨fun hc => absurd hc (by decide), fun hc => absurd hc h1⟩

/-- A concrete close series: 0 at bar 0, then 4. -/
def stepSeq : ℕ → ℚ := fun n => if n = 0 then 0 else 4

/-- On the step series with EMA lengths 1, 3, 7, 7, bar 1 carries a
bullish stack, and with upper band -1 and lower band 0 the SuperTrend
direction at bar 1 is +1, so the MTF score is 40. -/
theorem mtfScoreCol_eval_step :
    mtfScoreCol stepSeq (constSeq (-1)) zeroSeq 1 3 7 7 1 = 40 := by
  have e9 : ema stepSeq 1 1 = 4 := by
    show stepSeq 1 * (2 / ((1 : ℚ) + 1)) + stepSeq 0 * (1 - 2 / ((1 : ℚ) + 1)) = 4
    norm_num [stepSeq]
  have e21 : ema stepSeq 3 1 = 2 := by
    show stepSeq 1 * (2 / ((3 : ℚ) + 1)) + stepSeq 0 * (1 - 2 / ((3 : ℚ) + 1)) = 2
    norm_num [stepSeq]
  have e50 : ema stepSeq 7 1 = 1 := by
    show stepSeq 1 * (2 / ((7 : ℚ) + 1)) + stepSeq 0 * (1 - 2 / ((7 : ℚ) + 1)) = 1
    norm_num [stepSeq]
  have hbull : bullishStackCol stepSeq 1 3 7 7 1 = true := by
    unfold bullishStackCol
    rw [e9, e21, e50]
    norm_num [stepSeq]
  have hbear : bearishStackCol stepSeq 1 3 7 7 1 = false := by
    unfold bearishStackCol
    rw [e9, e21, e50]
    norm_num [stepSeq]
  have hdir : st_direction (constSeq (-1)) zeroSeq stepSeq 1 = 1 := by decide
  unfold mtfScoreCol stBullishCol stBearishCol
  rw [hbull, hbear, hdir]
  norm_num

/-- C10 witness: the score implication applied at the concrete step
series input where the score reaches 30. -/
theorem C10_bias_characterization_witness :
    mtfScoreCol stepSeq (constSeq (-1)) zeroSeq 1 3 7 7 1 = 40 :=
  (C10_bias_characterization stepSeq (constSeq (-1)) zeroSeq 1 3 7 7 1).2.2.2.1
    (by rw [mtfScoreCol_eval_step]; decide)

/-- C8 amended: `add_all_indicators` performs no timestamp validation
at all; its output does not depend on the timestamp index, so
out-of-order or duplicate timestamps produce ordinary (silently
computed) indicator output instead of an InvalidParameter failure. -/
theorem C8_no_timestamp_validation (ts ts' : ℕ → ℤ) (close u l : ℕ → ℚ)
    (l9 l21 l50 l200 : ℕ) :
    add_all_indicators ts close u l l9 l21 l50 l200 =
    add_all_indicators ts' close u l l9 l21 l50 l200 := rfl

/-- A strictly decreasing (out-of-order) timestamp index. -/
def decTs : ℕ → ℤ := fun i => -(i : ℤ)

/-- A constant (duplicate) timestamp index. -/
def dupTs : ℕ → ℤ := fun _ => 0

/-- C8 counterexample: on out-of-order timestamps (decreasing) and on
duplicate timestamps, `add_all_indicators` does not fail: it returns
fully computed indicator columns (here the Bias column at bar 0), so no
InvalidParameter is ever signalled. -/
theorem C8_counterexample :
    decTs 1 < decTs 0 ∧ dupTs 0 = dupTs 1 ∧
    (add_all_indicators decTs (constSeq 5) (constSeq 5) (constSeq 5) 9 21 50 200).Bias 0
      = "NEUTRAL" ∧
    (add_all_indicators dupTs (constSeq 5) (constSeq 5) (constSeq 5) 9 21 50 200).Bias 0
      = "NEUTRAL" := by
  refine ⟨by decide, rfl, ?_, ?_⟩ <;> rfl
